import Mathlib

/-!
# tinyllm binding: registry of model handles and the decode example

A shallow embedding of `examples/binding/binding.cpp`.

* The process-wide `std::map<std::string, model_ctx *> models` is a finite map with unique
  keys; it is embedded as a function from keys to optional handles.  Every pointer stored in
  the map comes from its own `new model_ctx()` and never leaves the file, so a map slot is
  identified with the handle it points to, and a write through the pointer is a write to the
  slot.
* The inference engine (`llama.h`, `common.h`) is not part of the sources.  It is a parameter:
  `Engine` gives the answers of its entry points, and every call that matters is appended to a
  trace kept in the state, oldest call first.
* Releasing a model that is already released is undefined behaviour.  A call that does it
  ends with `Outcome.undefined`, paired with the state at that statement; nothing is said of
  what follows.
* `std::lock_guard` is not embedded: calls are taken one at a time.
* Pointers are natural numbers, `0` being the null pointer.
-/

namespace TinyLLM

/-- Load parameters `llama_model_params`: the six fields written by `load_model`, and `rest`
standing for every other field of the engine's record. -/
structure llama_model_params where
  n_gpu_layers : Int
  split_mode : Int
  main_gpu : Int
  vocab_only : Bool
  use_mmap : Bool
  use_mlock : Bool
  rest : Nat
deriving DecidableEq, Repr

/-- Context parameters `llama_context_params`: the five fields written by the setters, and
`rest` standing for every other field of the engine's record. -/
structure llama_context_params where
  seed : Int
  n_ctx : Int
  n_batch : Int
  n_threads : Int
  n_threads_batch : Int
  rest : Nat
deriving DecidableEq, Repr

/-- Handle `struct model_ctx`: both parameter records and the owning model pointer. -/
structure model_ctx where
  model_params : llama_model_params
  ctx_params : llama_context_params
  model : Nat
deriving DecidableEq, Repr

/-- One entry of a `llama_batch`: token, position, and whether logits are requested.  The
sequence id is `0` in every call of the source and is left out. -/
structure batch_entry where
  token : Int
  pos : Int
  logits : Bool
deriving DecidableEq, Repr

/-- Calls into the engine, and the two outputs of the decode example that carry data of the
run (the generated token that is printed, and the final count of decoded tokens). -/
inductive Event where
  | llama_load_model_from_file (path : String) (params : llama_model_params)
  | llama_free_model (model : Nat)
  | llama_new_context_with_model (model : Nat) (params : llama_context_params)
  | llama_decode (batch : List batch_entry)
  | print_token (token : Int)
  | report_decoded (n_decode : Int)
  | llama_free
deriving DecidableEq, Repr

/-- Answers of the engine on one inference context, which `llama_test` creates afresh on each
call: the tokens of a prompt, the context length, the return code of the `i`-th
`llama_decode` on the context, and the token chosen by the `i`-th
`llama_sample_token_greedy` on it (both counted from `0`). -/
structure Session where
  llama_tokenize : String → List Int
  llama_n_ctx : Int
  llama_decode : Nat → Int
  llama_sample_token_greedy : Nat → Int

/-- The engine as the binding sees it.  The default parameter records are constants.  Loading
a model and creating a context may answer differently from one call to the next, so they see
the trace of the calls made before.  The `to_*` functions are the implicit conversions of an
`int` argument to the declared type of the context-parameter field it is assigned to; the
declarations are in `llama.h`. -/
structure Engine where
  llama_model_default_params : llama_model_params
  llama_context_default_params : llama_context_params
  llama_load_model_from_file : List Event → String → llama_model_params → Nat
  llama_new_context_with_model : List Event → Nat → llama_context_params → Option Session
  llama_token_eos : Nat → Int
  to_seed : Int → Int
  to_n_ctx : Int → Int
  to_n_batch : Int → Int
  to_n_threads : Int → Int
  to_n_threads_batch : Int → Int

/-- Contents of `std::map<std::string, model_ctx *>`. -/
abbrev Registry := String → Option model_ctx

/-- Process state: the global `models`, the trace of engine calls (oldest first), and the
number of `model_ctx` objects that were allocated with `new` and not yet deleted. -/
structure State where
  models : Registry
  trace : List Event
  heap_objects : Nat

/-- Assignment `models[key] = ctx`, also used for a write through the pointer in a slot. -/
def Registry.assign (m : Registry) (key : String) (ctx : model_ctx) : Registry :=
  fun k => if k = key then some ctx else m k

/-- Removal `models.erase(it)` of the entry found under `key`. -/
def Registry.erase (m : Registry) (key : String) : Registry :=
  fun k => if k = key then none else m k

/-- Value-initialised handle of `new model_ctx()`: every member is zero, the model is null. -/
def model_ctx_new : model_ctx :=
  { model_params :=
      { n_gpu_layers := 0, split_mode := 0, main_gpu := 0, vocab_only := false,
        use_mmap := false, use_mlock := false, rest := 0 }
    ctx_params :=
      { seed := 0, n_ctx := 0, n_batch := 0, n_threads := 0, n_threads_batch := 0, rest := 0 }
    model := 0 }

/-- Destructor `~model_ctx`: a non-null model is released and the member is nulled. -/
def model_ctx_dtor (h : model_ctx) (tr : List Event) : model_ctx × List Event :=
  if h.model ≠ 0 then
    ({ h with model := 0 }, tr ++ [Event.llama_free_model h.model])
  else
    (h, tr)

/-- Expression `delete p`: the destructor runs on the object, then the object is gone. -/
def delete_model_ctx (s : State) (h : model_ctx) : State :=
  { s with trace := (model_ctx_dtor h s.trace).2, heap_objects := s.heap_objects - 1 }

/-- Result of a call that can run into undefined behaviour: the returned code; or undefined
behaviour, paired with the state at the offending statement; or, for `llama_test`,
exhaustion of the fuel given to its loop.  The undefined behaviours embedded are the release
of a model that is already released (a double free), and in `llama_test` a prompt with no
token (line 199 writes before the start of `batch.logits`) or with more than the 512 tokens
the batch was allocated for. -/
inductive Outcome where
  | ret (code : Int)
  | undefined
  | out_of_fuel
deriving DecidableEq, Repr

/-- Whether `model` is dangling after the calls of a trace: `llama_free_model` released it,
and `llama_load_model_from_file`, which could return the pointer anew, was not called
since. -/
def released (model : Nat) (tr : List Event) : Bool :=
  tr.foldl
    (fun r e =>
      match e with
      | Event.llama_free_model m => if m = model then true else r
      | Event.llama_load_model_from_file _ _ => false
      | _ => r)
    false

/-- Whether `llama_free_model(model)`, called after the calls of `tr`, is a double free: the
model is not null and is dangling. -/
def double_free (tr : List Event) (model : Nat) : Bool :=
  model != 0 && released model tr

/-- Lines 41 to 47 of `load_model`: the engine's default load parameters with the six
overrides applied. -/
def load_params (E : Engine) (gpu_layers split_mode main_gpu : Int)
    (vocab_only use_mmap use_mlock : Bool) : llama_model_params :=
  { E.llama_model_default_params with
    n_gpu_layers := gpu_layers
    split_mode := split_mode
    main_gpu := main_gpu
    vocab_only := vocab_only
    use_mmap := use_mmap
    use_mlock := use_mlock }

/-- Embedding of `load_model`; a null `model_path` is `none`. -/
def load_model (E : Engine) (s : State) (model_id : String) (model_path : Option String)
    (gpu_layers split_mode main_gpu : Int) (vocab_only use_mmap use_mlock : Bool) :
    Int × State :=
  match model_path with
  | none => (-1, s)
  | some path =>
    match s.models model_id with
    | some _ => (1, s)
    | none =>
      let ctx0 : model_ctx := model_ctx_new
      let s1 : State := { s with heap_objects := s.heap_objects + 1 }
      let params := load_params E gpu_layers split_mode main_gpu vocab_only use_mmap use_mlock
      let model := E.llama_load_model_from_file s1.trace path params
      let ctx1 : model_ctx := { ctx0 with model_params := params, model := model }
      let s2 : State :=
        { s1 with trace := s1.trace ++ [Event.llama_load_model_from_file path params] }
      if ctx1.model = 0 then
        (-1, delete_model_ctx s2 ctx1)
      else
        let ctx2 : model_ctx := { ctx1 with ctx_params := E.llama_context_default_params }
        (0, { s2 with models := s2.models.assign model_id ctx2 })

/-- Embedding of `unload_model`.  Line 67 releases the model of the handle and leaves the
member `model` as it is; `delete` on line 68 runs the destructor, which releases the model
again when the member is not null.  A release that is a double free is undefined behaviour,
and the call ends there. -/
def unload_model (s : State) (model_id : String) : Outcome × State :=
  match s.models model_id with
  | none => (Outcome.ret (-1), s)
  | some h =>
    let s1 : State := { s with trace := s.trace ++ [Event.llama_free_model h.model] }
    if double_free s.trace h.model then
      (Outcome.undefined, s1)
    else if double_free s1.trace h.model then
      (Outcome.undefined, { s1 with trace := (model_ctx_dtor h s1.trace).2 })
    else
      let s2 : State := delete_model_ctx s1 h
      (Outcome.ret 0, { s2 with models := s2.models.erase model_id })

/-- Embedding of `get_model`: the handle in the slot of `model_id`, `none` for `NULL`. -/
def get_model (s : State) (model_id : String) : Option model_ctx :=
  s.models model_id

/-- Embedding of `set_seed`. -/
def set_seed (E : Engine) (s : State) (model_id : String) (seed : Int) : Int × State :=
  match get_model s model_id with
  | none => (-1, s)
  | some ctx =>
    let ctx_params : llama_context_params :=
      { ctx.ctx_params with seed := E.to_seed seed }
    (0, { s with models := s.models.assign model_id { ctx with ctx_params := ctx_params } })

/-- Embedding of `set_ctx_size`. -/
def set_ctx_size (E : Engine) (s : State) (model_id : String) (ctx_size : Int) :
    Int × State :=
  match get_model s model_id with
  | none => (-1, s)
  | some ctx =>
    let ctx_size := if ctx_size < 2048 then 2048 else ctx_size
    let ctx_params : llama_context_params :=
      { ctx.ctx_params with n_ctx := E.to_n_ctx ctx_size }
    (0, { s with models := s.models.assign model_id { ctx with ctx_params := ctx_params } })

/-- Embedding of `set_batch_size`. -/
def set_batch_size (E : Engine) (s : State) (model_id : String) (batch_size : Int) :
    Int × State :=
  match get_model s model_id with
  | none => (-1, s)
  | some ctx =>
    let ctx_params : llama_context_params :=
      { ctx.ctx_params with n_batch := E.to_n_batch batch_size }
    (0, { s with models := s.models.assign model_id { ctx with ctx_params := ctx_params } })

/-- Embedding of `set_threads`. -/
def set_threads (E : Engine) (s : State) (model_id : String) (threads : Int) :
    Int × State :=
  match get_model s model_id with
  | none => (-1, s)
  | some ctx =>
    let ctx_params : llama_context_params :=
      { ctx.ctx_params with n_threads := E.to_n_threads threads }
    (0, { s with models := s.models.assign model_id { ctx with ctx_params := ctx_params } })

/-- Embedding of `set_threads_batch`. -/
def set_threads_batch (E : Engine) (s : State) (model_id : String) (threads : Int) :
    Int × State :=
  match get_model s model_id with
  | none => (-1, s)
  | some ctx =>
    let ctx_params : llama_context_params :=
      { ctx.ctx_params with n_threads_batch := E.to_n_threads_batch threads }
    (0, { s with models := s.models.assign model_id { ctx with ctx_params := ctx_params } })

/-- Constant `n_len` of `llama_test`: total length of the sequence including the prompt. -/
def n_len : Int := 32

/-- Conversion of an `int` to the 64-bit unsigned `size_t`. -/
def size_of_int (i : Int) : Nat :=
  (i % 2 ^ 64).toNat

/-- Addition of `size_t` values. -/
def size_add (a b : Nat) : Nat :=
  (a + b) % 2 ^ 64

/-- Subtraction of `size_t` values, wrapping below zero. -/
def size_sub (a b : Nat) : Nat :=
  (a % 2 ^ 64 + (2 ^ 64 - b % 2 ^ 64)) % 2 ^ 64

/-- Conversion of a `size_t` to the 32-bit signed `int`. -/
def int_of_size (x : Nat) : Int :=
  if x % 2 ^ 32 < 2 ^ 31 then ((x % 2 ^ 32 : Nat) : Int)
  else ((x % 2 ^ 32 : Nat) : Int) - 2 ^ 32

/-- Line 163: `n_kv_req = tokens_list.size() + (n_len - tokens_list.size())`, computed in
`size_t` and stored in an `int`; `size` is `tokens_list.size()`. -/
def n_kv_req (size : Nat) : Int :=
  int_of_size (size_add size (size_sub (size_of_int n_len) size))

/-- Engine helper `llama_batch_init(n_tokens, 0, 1)`: an empty batch. -/
def llama_batch_init (_n_tokens : Nat) : List batch_entry := []

/-- Engine helper `llama_batch_add(batch, id, pos, seq_ids, logits)` with `seq_ids` the single
sequence `0`: one more entry at the end. -/
def llama_batch_add (batch : List batch_entry) (id : Int) (pos : Int) (logits : Bool) :
    List batch_entry :=
  batch ++ [{ token := id, pos := pos, logits := logits }]

/-- Engine helper `llama_batch_clear(batch)`: `n_tokens` is reset to zero. -/
def llama_batch_clear (_batch : List batch_entry) : List batch_entry := []

/-- Lines 194 to 196: every prompt token is added at its index, without logits. -/
def add_prompt (batch : List batch_entry) (tokens_list : List Int) : List batch_entry :=
  tokens_list.enum.foldl (fun b it => llama_batch_add b it.2 it.1 false) batch

/-- Line 199: `batch.logits[batch.n_tokens - 1] = true` on a batch that is not empty. -/
def set_last_logits (batch : List batch_entry) : List batch_entry :=
  batch.modify (fun e => { e with logits := true }) (batch.length - 1)

/-- How the `while` loop of `llama_test` is left: normally (its condition is false, or
`break`), by `return` inside the body, or because the fuel ran out. -/
inductive LoopExit where
  | left
  | returned (code : Int)
  | out_of_fuel
deriving DecidableEq, Repr

/-- Local variables of `llama_test` during the main loop, with the number of calls of
`llama_decode` and of `llama_sample_token_greedy` made so far on the context. -/
structure Loop where
  n_cur : Int
  n_decode : Int
  batch : List batch_entry
  decode_calls : Nat
  sample_calls : Nat
  trace : List Event

/-- Lines 213 to 262: the main loop `while (n_cur <= n_len)`, one iteration for each unit of
fuel. -/
def main_loop (S : Session) (eos : Int) : Nat → Loop → LoopExit × Loop
  | 0, v => if v.n_cur ≤ n_len then (LoopExit.out_of_fuel, v) else (LoopExit.left, v)
  | fuel + 1, v =>
    if v.n_cur ≤ n_len then
      let new_token_id := S.llama_sample_token_greedy v.sample_calls
      let v : Loop := { v with sample_calls := v.sample_calls + 1 }
      if new_token_id = eos ∨ v.n_cur = n_len then
        (LoopExit.left, v)
      else
        let v : Loop := { v with trace := v.trace ++ [Event.print_token new_token_id] }
        let v : Loop := { v with batch := llama_batch_clear v.batch }
        let v : Loop := { v with batch := llama_batch_add v.batch new_token_id v.n_cur true }
        let v : Loop := { v with n_decode := v.n_decode + 1 }
        let v : Loop := { v with n_cur := v.n_cur + 1 }
        let rc := S.llama_decode v.decode_calls
        let v : Loop :=
          { v with
            decode_calls := v.decode_calls + 1
            trace := v.trace ++ [Event.llama_decode v.batch] }
        if rc ≠ 0 then (LoopExit.returned 1, v) else main_loop S eos fuel v
    else
      (LoopExit.left, v)

/-- Embedding of `llama_test`.  Diagnostics and the echo of the prompt are left out; `fuel`
bounds the number of iterations of the main loop. -/
def llama_test (E : Engine) (fuel : Nat) (s : State) (model_id prompt : String) :
    Outcome × State :=
  match get_model s model_id with
  | none => (Outcome.ret (-1), s)
  | some ctx =>
    let s1 : State :=
      { s with
        trace := s.trace ++ [Event.llama_new_context_with_model ctx.model ctx.ctx_params] }
    match E.llama_new_context_with_model s.trace ctx.model ctx.ctx_params with
    | none => (Outcome.ret 1, s1)
    | some S =>
      let tokens_list := S.llama_tokenize prompt
      let n_ctx := S.llama_n_ctx
      if n_kv_req tokens_list.length > n_ctx then
        (Outcome.ret 1, s1)
      else if tokens_list.length = 0 ∨ 512 < tokens_list.length then
        (Outcome.undefined, s1)
      else
        let batch := llama_batch_init 512
        let batch := add_prompt batch tokens_list
        let batch := set_last_logits batch
        let rc := S.llama_decode 0
        let s2 : State := { s1 with trace := s1.trace ++ [Event.llama_decode batch] }
        if rc ≠ 0 then
          (Outcome.ret 1, s2)
        else
          let v : Loop :=
            { n_cur := batch.length, n_decode := 0, batch := batch, decode_calls := 1,
              sample_calls := 0, trace := s2.trace }
          match main_loop S (E.llama_token_eos ctx.model) fuel v with
          | (LoopExit.left, v) =>
            (Outcome.ret 0,
              { s2 with trace := v.trace ++ [Event.report_decoded v.n_decode, Event.llama_free] })
          | (LoopExit.returned code, v) => (Outcome.ret code, { s2 with trace := v.trace })
          | (LoopExit.out_of_fuel, v) => (Outcome.out_of_fuel, { s2 with trace := v.trace })

/-- Number of calls of `llama_decode` recorded in a trace. -/
def decode_count (tr : List Event) : Nat :=
  tr.countP fun e =>
    match e with
    | Event.llama_decode _ => true
    | _ => false

/-- Generated tokens printed in a trace, in order. -/
def printed (tr : List Event) : List Int :=
  tr.filterMap fun e =>
    match e with
    | Event.print_token token => some token
    | _ => none

/-- Values of `n_decode` reported in a trace, in order. -/
def reported (tr : List Event) : List Int :=
  tr.filterMap fun e =>
    match e with
    | Event.report_decoded n => some n
    | _ => none

/-- Number of tokens of the stream `sampled`, read from index `start`, that come before its
first `eos`, counting at most `n` of them: the minimum of `n` and the distance to the first
`eos`. -/
def eos_index (sampled : Nat → Int) (eos : Int) (start : Nat) : Nat → Nat
  | 0 => 0
  | n + 1 => if sampled start = eos then 0 else eos_index sampled eos (start + 1) n + 1

/-- Events of `d` consecutive iterations of the main loop that generate a token: the token
`sampled start`, `sampled (start + 1)`, ... is printed and then decoded at position `pos`,
`pos + 1`, ... -/
def loop_events (sampled : Nat → Int) : Nat → Int → Nat → List Event
  | _, _, 0 => []
  | start, pos, d + 1 =>
    [Event.print_token (sampled start),
      Event.llama_decode [{ token := sampled start, pos := pos, logits := true }]]
      ++ loop_events sampled (start + 1) (pos + 1) d

/-- The state `s` in which the handle `h` stored under `model_id` has its context
parameters replaced by `params`; the rest of the handle and of the state is kept. -/
def store_ctx_params (s : State) (model_id : String) (h : model_ctx)
    (params : llama_context_params) : State :=
  { s with models := s.models.assign model_id { h with ctx_params := params } }

/-- Number of calls of `llama_free_model` on `model` recorded in a trace. -/
def release_count (model : Nat) (tr : List Event) : Nat :=
  tr.count (Event.llama_free_model model)

/-- Number of calls of `llama_load_model_from_file` recorded in a trace. -/
def load_count (tr : List Event) : Nat :=
  tr.countP fun e =>
    match e with
    | Event.llama_load_model_from_file _ _ => true
    | _ => false

/-- A context of `test_engine`: the tokenizer gives the begin-of-sequence token `1` and then
one token for each character, every decode succeeds, and the sampler gives `100`, `101`,
`102`, then the end-of-sequence token `2`, then `104`, and so on. -/
def test_session (params : llama_context_params) : Session where
  llama_tokenize := fun prompt => 1 :: prompt.toList.map fun c => (c.toNat : Int)
  llama_n_ctx := if params.n_ctx = 0 then 40 else params.n_ctx
  llama_decode := fun _ => 0
  llama_sample_token_greedy := fun i => if i = 3 then 2 else 100 + (i : Int)

/-- An engine used to run the embedding on concrete inputs.  It fails to load the path
`missing.gguf` and otherwise returns a fresh non-null model; its fields `seed`, `n_ctx` and
`n_batch` are 32-bit unsigned and its fields `n_threads` and `n_threads_batch` are 32-bit
signed; a context length of `0` in the parameters stands for the training length of the
model, which is `40`. -/
def test_engine : Engine where
  llama_model_default_params :=
    { n_gpu_layers := 0, split_mode := 1, main_gpu := 0, vocab_only := false,
      use_mmap := true, use_mlock := false, rest := 7 }
  llama_context_default_params :=
    { seed := 4294967295, n_ctx := 0, n_batch := 512, n_threads := 4,
      n_threads_batch := 4, rest := 9 }
  llama_load_model_from_file := fun tr path _ =>
    if path = "missing.gguf" then 0 else tr.length + 1
  llama_new_context_with_model := fun _ _ params => some (test_session params)
  llama_token_eos := fun _ => 2
  to_seed := fun v => v % 4294967296
  to_n_ctx := fun v => v % 4294967296
  to_n_batch := fun v => v % 4294967296
  to_n_threads := fun v => (v + 2147483648) % 4294967296 - 2147483648
  to_n_threads_batch := fun v => (v + 2147483648) % 4294967296 - 2147483648

/-- The handle that `load_model` registers in `one_model_state`; its model pointer is `1`. -/
def test_handle : model_ctx :=
  { model_params := load_params test_engine 0 1 0 false true false
    ctx_params := test_engine.llama_context_default_params
    model := 1 }

/-- A prompt of 47 characters, which `test_session` turns into 48 tokens. -/
def long_prompt : String := "The quick brown fox jumps over the lazy dog now"

/-- The state with an empty registry. -/
def empty_state : State :=
  { models := fun _ => none, trace := [], heap_objects := 0 }

/-- The state reached from `empty_state` by a successful `load_model` of the id `m`. -/
def one_model_state : State :=
  (load_model test_engine empty_state "m" (some "model.gguf") 0 1 0 false true false).2

/-! ## Registry operations -/

theorem assign_same (m : Registry) (key : String) (ctx : model_ctx) :
    m.assign key ctx key = some ctx := by
  simp [Registry.assign]

theorem erase_same (m : Registry) (key : String) : m.erase key key = none := by
  simp [Registry.erase]

theorem erase_other (m : Registry) (key k : String) (hk : k ≠ key) :
    m.erase key k = m k := by
  simp [Registry.erase, hk]

theorem erase_absent (m : Registry) (key : String) (h : m key = none) : m.erase key = m := by
  funext k
  by_cases hk : k = key
  · subst hk; simp [Registry.erase, h]
  · simp [Registry.erase, hk]

/-- C1: when `model_id` is already registered and the path is not null, `load_model` returns
`1` and the state after the call is the state before it: the handle under `model_id` is the
same handle, every other entry is the same, and the trace has no new engine call, so
`llama_load_model_from_file` is not invoked. -/
theorem load_model_already_loaded (E : Engine) (s : State) (model_id path : String)
    (gpu_layers split_mode main_gpu : Int) (vocab_only use_mmap use_mlock : Bool)
    (h : model_ctx) (hreg : s.models model_id = some h) :
    load_model E s model_id (some path) gpu_layers split_mode main_gpu vocab_only use_mmap
        use_mlock = (1, s)
      ∧ (load_model E s model_id (some path) gpu_layers split_mode main_gpu vocab_only use_mmap
          use_mlock).2.models model_id = some h
      ∧ load_count (load_model E s model_id (some path) gpu_layers split_mode main_gpu
          vocab_only use_mmap use_mlock).2.trace = load_count s.trace := by
  have hres : load_model E s model_id (some path) gpu_layers split_mode main_gpu vocab_only
      use_mmap use_mlock = (1, s) := by
    simp [load_model, hreg]
  rw [hres]
  exact ⟨rfl, hreg, rfl⟩

theorem load_model_already_loaded_witness :
    one_model_state.models "m" = some test_handle
      ∧ load_model test_engine one_model_state "m" (some "other.gguf") 3 0 1 true false true
        = (1, one_model_state)
      ∧ (load_model test_engine one_model_state "m" (some "other.gguf") 3 0 1 true false
          true).2.models "m" = some test_handle
      ∧ load_count (load_model test_engine one_model_state "m" (some "other.gguf") 3 0 1 true
          false true).2.trace = load_count one_model_state.trace :=
  ⟨by decide,
    load_model_already_loaded test_engine one_model_state "m" "other.gguf" 3 0 1 true false
      true test_handle (by decide)⟩

/-- C2: when `model_id` is not registered, `unload_model` returns `-1` and the state after the
call is the state before it: same registry, and no new call in the trace, so no model is
released. -/
theorem unload_model_unknown (s : State) (model_id : String)
    (hreg : s.models model_id = none) :
    unload_model s model_id = (Outcome.ret (-1), s) := by
  simp [unload_model, hreg]

theorem unload_model_unknown_witness :
    one_model_state.models "x" = none
      ∧ unload_model one_model_state "x" = (Outcome.ret (-1), one_model_state) :=
  ⟨by decide, unload_model_unknown one_model_state "x" (by decide)⟩

/-- C4: when `model_id` is not registered, each of the five setters returns `-1` and the
state after the call is the state before it, whatever the argument. -/
theorem setters_unknown (E : Engine) (s : State) (model_id : String) (v : Int)
    (hreg : s.models model_id = none) :
    set_seed E s model_id v = (-1, s)
      ∧ set_ctx_size E s model_id v = (-1, s)
      ∧ set_batch_size E s model_id v = (-1, s)
      ∧ set_threads E s model_id v = (-1, s)
      ∧ set_threads_batch E s model_id v = (-1, s) := by
  simp [set_seed, set_ctx_size, set_batch_size, set_threads, set_threads_batch, get_model, hreg]

theorem setters_unknown_witness :
    one_model_state.models "x" = none
      ∧ set_seed test_engine one_model_state "x" 7 = (-1, one_model_state)
      ∧ set_ctx_size test_engine one_model_state "x" 7 = (-1, one_model_state)
      ∧ set_batch_size test_engine one_model_state "x" 7 = (-1, one_model_state)
      ∧ set_threads test_engine one_model_state "x" 7 = (-1, one_model_state)
      ∧ set_threads_batch test_engine one_model_state "x" 7 = (-1, one_model_state) :=
  ⟨by decide, setters_unknown test_engine one_model_state "x" 7 (by decide)⟩

theorem dtor_null (h : model_ctx) (tr : List Event) (hm : h.model = 0) :
    model_ctx_dtor h tr = (h, tr) := by
  simp [model_ctx_dtor, hm]

theorem dtor_live (h : model_ctx) (tr : List Event) (hm : h.model ≠ 0) :
    model_ctx_dtor h tr = ({ h with model := 0 }, tr ++ [Event.llama_free_model h.model]) := by
  simp [model_ctx_dtor, hm]

theorem release_count_append (m : Nat) (tr tr2 : List Event) :
    release_count m (tr ++ tr2) = release_count m tr + release_count m tr2 := by
  simp [release_count]

/-- What `load_model` does when the path is not null, the id is free and the engine fails to
load: `-1`, and only the trace grows, by the one call of `llama_load_model_from_file`. -/
theorem load_model_engine_failure (E : Engine) (s : State) (model_id path : String)
    (gpu_layers split_mode main_gpu : Int) (vocab_only use_mmap use_mlock : Bool)
    (hreg : s.models model_id = none)
    (hnull : E.llama_load_model_from_file s.trace path
      (load_params E gpu_layers split_mode main_gpu vocab_only use_mmap use_mlock) = 0) :
    load_model E s model_id (some path) gpu_layers split_mode main_gpu vocab_only use_mmap
        use_mlock
      = (-1, { s with trace := s.trace ++ [Event.llama_load_model_from_file path
          (load_params E gpu_layers split_mode main_gpu vocab_only use_mmap use_mlock)] }) := by
  simp [load_model, hreg, hnull, delete_model_ctx, model_ctx_dtor]

/-- What `load_model` does when the path is not null, the id is free and the engine returns
a model: `0`, and the new handle is stored under the id. -/
theorem load_model_success (E : Engine) (s : State) (model_id path : String)
    (gpu_layers split_mode main_gpu : Int) (vocab_only use_mmap use_mlock : Bool)
    (hreg : s.models model_id = none)
    (hmodel : E.llama_load_model_from_file s.trace path
      (load_params E gpu_layers split_mode main_gpu vocab_only use_mmap use_mlock) ≠ 0) :
    load_model E s model_id (some path) gpu_layers split_mode main_gpu vocab_only use_mmap
        use_mlock
      = (0,
          { models := s.models.assign model_id
              { model_params :=
                  load_params E gpu_layers split_mode main_gpu vocab_only use_mmap use_mlock
                ctx_params := E.llama_context_default_params
                model := E.llama_load_model_from_file s.trace path
                  (load_params E gpu_layers split_mode main_gpu vocab_only use_mmap use_mlock) }
            trace := s.trace ++ [Event.llama_load_model_from_file path
              (load_params E gpu_layers split_mode main_gpu vocab_only use_mmap use_mlock)]
            heap_objects := s.heap_objects + 1 }) := by
  simp [load_model, hreg, hmodel, model_ctx_new]

/-- A handle that `load_model` registers owns a model: when the call returns `0` on a free
id, the handle stored under the id has a non-null model pointer. -/
theorem load_model_registers_model (E : Engine) (s : State) (model_id path : String)
    (gpu_layers split_mode main_gpu : Int) (vocab_only use_mmap use_mlock : Bool)
    (hreg : s.models model_id = none)
    (hret : (load_model E s model_id (some path) gpu_layers split_mode main_gpu vocab_only
      use_mmap use_mlock).1 = 0) :
    ∃ h, (load_model E s model_id (some path) gpu_layers split_mode main_gpu vocab_only
        use_mmap use_mlock).2.models model_id = some h ∧ h.model ≠ 0 := by
  by_cases hnull : E.llama_load_model_from_file s.trace path
      (load_params E gpu_layers split_mode main_gpu vocab_only use_mmap use_mlock) = 0
  · rw [load_model_engine_failure E s model_id path gpu_layers split_mode main_gpu vocab_only
      use_mmap use_mlock hreg hnull] at hret
    simp at hret
  · rw [load_model_success E s model_id path gpu_layers split_mode main_gpu vocab_only
      use_mmap use_mlock hreg hnull]
    exact ⟨_, assign_same _ _ _, hnull⟩

theorem released_append_free (model : Nat) (tr : List Event) :
    released model (tr ++ [Event.llama_free_model model]) = true := by
  simp [released]

theorem released_append_load (model : Nat) (tr : List Event) (path : String)
    (params : llama_model_params) :
    released model (tr ++ [Event.llama_load_model_from_file path params]) = false := by
  simp [released]

/-- What `unload_model` does on a registered id whose handle owns a model that is not
dangling: line 67 releases the model, the destructor releases it again, and the call ends
there in undefined behaviour, before the entry is erased. -/
theorem unload_model_live (s : State) (model_id : String) (h : model_ctx)
    (hreg : s.models model_id = some h) (hmodel : h.model ≠ 0)
    (hlive : released h.model s.trace = false) :
    unload_model s model_id
      = (Outcome.undefined,
          { s with
            trace := s.trace
              ++ [Event.llama_free_model h.model, Event.llama_free_model h.model] }) := by
  simp [unload_model, hreg, double_free, hlive, hmodel, released_append_free, model_ctx_dtor]

/-- What `unload_model` does on a registered id whose handle has a null model: the one call
on line 67 releases nothing, the destructor calls nothing, the entry is erased and `0` is
returned. -/
theorem unload_model_null (s : State) (model_id : String) (h : model_ctx)
    (hreg : s.models model_id = some h) (hmodel : h.model = 0) :
    unload_model s model_id
      = (Outcome.ret 0,
          { models := s.models.erase model_id
            trace := s.trace ++ [Event.llama_free_model 0]
            heap_objects := s.heap_objects - 1 }) := by
  simp [unload_model, hreg, double_free, hmodel, delete_model_ctx, model_ctx_dtor]

/-- C7: when the path is null, or when `model_id` is not registered and the engine's
`llama_load_model_from_file` returns null, `load_model` returns `-1` and the registry after
the call is the registry before it; the handle built for the call is deleted (as many
`model_ctx` objects are alive after the call as before) and no model is released. -/
theorem load_model_failure_atomic (E : Engine) (s : State) (model_id : String)
    (model_path : Option String) (gpu_layers split_mode main_gpu : Int)
    (vocab_only use_mmap use_mlock : Bool)
    (hfail : model_path = none ∨
      (s.models model_id = none ∧ ∀ path, model_path = some path →
        E.llama_load_model_from_file s.trace path
          (load_params E gpu_layers split_mode main_gpu vocab_only use_mmap use_mlock) = 0)) :
    (load_model E s model_id model_path gpu_layers split_mode main_gpu vocab_only use_mmap
        use_mlock).1 = -1
      ∧ (load_model E s model_id model_path gpu_layers split_mode main_gpu vocab_only use_mmap
        use_mlock).2.models = s.models
      ∧ (load_model E s model_id model_path gpu_layers split_mode main_gpu vocab_only use_mmap
        use_mlock).2.heap_objects = s.heap_objects
      ∧ ∀ m, release_count m (load_model E s model_id model_path gpu_layers split_mode main_gpu
        vocab_only use_mmap use_mlock).2.trace = release_count m s.trace := by
  cases model_path with
  | none => simp [load_model]
  | some path =>
    rcases hfail with hnone | ⟨hreg, hnull⟩
    · cases hnone
    · rw [load_model_engine_failure E s model_id path gpu_layers split_mode main_gpu vocab_only
        use_mmap use_mlock hreg (hnull path rfl)]
      simp [release_count]

theorem load_model_failure_atomic_witness :
    (empty_state.models "m" = none ∧ ∀ path, some "missing.gguf" = some path →
        test_engine.llama_load_model_from_file empty_state.trace path
          (load_params test_engine 3 0 1 true false true) = 0)
      ∧ (load_model test_engine empty_state "m" (some "missing.gguf") 3 0 1 true false
          true).1 = -1
      ∧ (load_model test_engine empty_state "m" (some "missing.gguf") 3 0 1 true false
          true).2.models = empty_state.models
      ∧ (load_model test_engine empty_state "m" (some "missing.gguf") 3 0 1 true false
          true).2.heap_objects = empty_state.heap_objects
      ∧ ∀ m, release_count m (load_model test_engine empty_state "m" (some "missing.gguf") 3 0 1
          true false true).2.trace = release_count m empty_state.trace :=
  have hyp : empty_state.models "m" = none ∧ ∀ path, some "missing.gguf" = some path →
      test_engine.llama_load_model_from_file empty_state.trace path
        (load_params test_engine 3 0 1 true false true) = 0 :=
    ⟨by decide, fun path hp => by cases hp; decide⟩
  ⟨hyp, load_model_failure_atomic test_engine empty_state "m" (some "missing.gguf") 3 0 1 true
    false true (Or.inr hyp)⟩

/-- C5: the sequence `load_model`, `unload_model`, `load_model` on one id does not get past
its second call.  From a state where `model_id` is not registered, when the engine returns a
model, `load_model` returns `0` and registers a handle that owns the model; `unload_model`
on the id then releases that model on line 67 and once more in the destructor run by line
68, a double free, so the call is undefined behaviour instead of returning `0`, and the
entry of the id is still in the registry when it happens. -/
theorem load_unload_double_free (E : Engine) (s : State) (model_id path : String)
    (gpu_layers split_mode main_gpu : Int) (vocab_only use_mmap use_mlock : Bool)
    (hreg : s.models model_id = none)
    (hload : E.llama_load_model_from_file s.trace path
      (load_params E gpu_layers split_mode main_gpu vocab_only use_mmap use_mlock) ≠ 0) :
    (load_model E s model_id (some path) gpu_layers split_mode main_gpu vocab_only use_mmap
        use_mlock).1 = 0
      ∧ (unload_model (load_model E s model_id (some path) gpu_layers split_mode main_gpu
          vocab_only use_mmap use_mlock).2 model_id).1 = Outcome.undefined
      ∧ release_count
          (E.llama_load_model_from_file s.trace path
            (load_params E gpu_layers split_mode main_gpu vocab_only use_mmap use_mlock))
          (unload_model (load_model E s model_id (some path) gpu_layers split_mode main_gpu
            vocab_only use_mmap use_mlock).2 model_id).2.trace
        = release_count
            (E.llama_load_model_from_file s.trace path
              (load_params E gpu_layers split_mode main_gpu vocab_only use_mmap use_mlock))
            s.trace + 2
      ∧ ((unload_model (load_model E s model_id (some path) gpu_layers split_mode main_gpu
          vocab_only use_mmap use_mlock).2 model_id).2.models model_id).isSome = true := by
  rw [load_model_success E s model_id path gpu_layers split_mode main_gpu vocab_only use_mmap
    use_mlock hreg hload]
  rw [unload_model_live _ model_id _ (assign_same _ _ _) hload (released_append_load _ _ _ _)]
  refine ⟨rfl, rfl, ?_, ?_⟩
  · simp [release_count]
  · simp [assign_same]

theorem load_unload_double_free_witness :
    (empty_state.models "m" = none
        ∧ test_engine.llama_load_model_from_file empty_state.trace "model.gguf"
            (load_params test_engine 0 1 0 false true false) ≠ 0)
      ∧ (load_model test_engine empty_state "m" (some "model.gguf") 0 1 0 false true
          false).1 = 0
      ∧ (unload_model (load_model test_engine empty_state "m" (some "model.gguf") 0 1 0 false
          true false).2 "m").1 = Outcome.undefined
      ∧ release_count
          (test_engine.llama_load_model_from_file empty_state.trace "model.gguf"
            (load_params test_engine 0 1 0 false true false))
          (unload_model (load_model test_engine empty_state "m" (some "model.gguf") 0 1 0 false
            true false).2 "m").2.trace
        = release_count
            (test_engine.llama_load_model_from_file empty_state.trace "model.gguf"
              (load_params test_engine 0 1 0 false true false))
            empty_state.trace + 2
      ∧ ((unload_model (load_model test_engine empty_state "m" (some "model.gguf") 0 1 0 false
          true false).2 "m").2.models "m").isSome = true :=
  ⟨⟨by decide, by decide⟩,
    load_unload_double_free test_engine empty_state "m" "model.gguf" 0 1 0 false true false
      (by decide) (by decide)⟩

/-- C8: on a registered id whose handle owns a model (not null, and not dangling before the
call), `unload_model` calls `llama_free_model` on the model twice: once on line 67, and once
more in the destructor run by `delete` on line 68, since the member `model` is still
non-null then.  The second release is a double free, so the call is undefined behaviour
there, before the `erase` of line 69 and the `return 0`. -/
theorem unload_model_releases_twice (s : State) (model_id : String) (h : model_ctx)
    (hreg : s.models model_id = some h) (hmodel : h.model ≠ 0)
    (hlive : released h.model s.trace = false) :
    (unload_model s model_id).1 = Outcome.undefined
      ∧ (unload_model s model_id).2.trace
          = s.trace ++ [Event.llama_free_model h.model, Event.llama_free_model h.model]
      ∧ release_count h.model (unload_model s model_id).2.trace
          = release_count h.model s.trace + 2 := by
  rw [unload_model_live s model_id h hreg hmodel hlive]
  refine ⟨rfl, rfl, ?_⟩
  simp [release_count]

theorem unload_model_releases_twice_witness :
    (one_model_state.models "m" = some test_handle ∧ test_handle.model ≠ 0
        ∧ released test_handle.model one_model_state.trace = false)
      ∧ (unload_model one_model_state "m").1 = Outcome.undefined
      ∧ (unload_model one_model_state "m").2.trace
          = one_model_state.trace
            ++ [Event.llama_free_model test_handle.model, Event.llama_free_model test_handle.model]
      ∧ release_count test_handle.model (unload_model one_model_state "m").2.trace
          = release_count test_handle.model one_model_state.trace + 2 :=
  ⟨⟨by decide, by decide, by decide⟩,
    unload_model_releases_twice one_model_state "m" test_handle (by decide) (by decide)
      (by decide)⟩

/-- C3: on a registered id `set_ctx_size` returns `0` and the field `n_ctx` of the handle is
then the larger of `ctx_size` and `2048`: exactly `2048` for every `ctx_size` below `2048`,
zero and negative values included, and `ctx_size` itself from `2048` up.  `ctx_size` is an
`int`, and the type of the field is taken to hold every `int` from `2048` up unchanged. -/
theorem set_ctx_size_floor (E : Engine) (s : State) (model_id : String) (ctx_size : Int)
    (h : model_ctx) (hreg : s.models model_id = some h)
    (hint : ctx_size < 2 ^ 31)
    (hfield : ∀ v : Int, 2048 ≤ v → v < 2 ^ 31 → E.to_n_ctx v = v) :
    (set_ctx_size E s model_id ctx_size).1 = 0
      ∧ ∃ h2, (set_ctx_size E s model_id ctx_size).2.models model_id = some h2
          ∧ h2.ctx_params.n_ctx = max ctx_size 2048
          ∧ (ctx_size < 2048 → h2.ctx_params.n_ctx = 2048)
          ∧ (2048 ≤ ctx_size → h2.ctx_params.n_ctx = ctx_size) := by
  have e : set_ctx_size E s model_id ctx_size = (0, store_ctx_params s model_id h
        { h.ctx_params with n_ctx := E.to_n_ctx (if ctx_size < 2048 then 2048 else ctx_size) }) := by
    simp [set_ctx_size, get_model, hreg, store_ctx_params]
  rw [e]
  refine ⟨rfl, _, assign_same _ _ _, ?_, ?_, ?_⟩
  · by_cases hlt : ctx_size < 2048
    · simp only [hlt, if_true]
      rw [hfield 2048 (le_refl _) (by norm_num), max_eq_right (le_of_lt hlt)]
    · simp only [hlt, if_false]
      rw [hfield ctx_size (not_lt.mp hlt) hint, max_eq_left (not_lt.mp hlt)]
  · intro hlt
    simp only [hlt, if_true]
    exact hfield 2048 (le_refl _) (by norm_num)
  · intro hge
    simp only [not_lt.mpr hge, if_false]
    exact hfield ctx_size hge hint

theorem set_ctx_size_floor_witness :
    (one_model_state.models "m" = some test_handle ∧ (-3 : Int) < 2 ^ 31
        ∧ ∀ v : Int, 2048 ≤ v → v < 2 ^ 31 → test_engine.to_n_ctx v = v)
      ∧ (set_ctx_size test_engine one_model_state "m" (-3)).1 = 0
      ∧ ∃ h2, (set_ctx_size test_engine one_model_state "m" (-3)).2.models "m" = some h2
          ∧ h2.ctx_params.n_ctx = max (-3) 2048
          ∧ ((-3 : Int) < 2048 → h2.ctx_params.n_ctx = 2048)
          ∧ ((2048 : Int) ≤ -3 → h2.ctx_params.n_ctx = -3) :=
  have hfield : ∀ v : Int, 2048 ≤ v → v < 2 ^ 31 → test_engine.to_n_ctx v = v := by
    intro v h1 h2
    simp only [test_engine]
    omega
  ⟨⟨by decide, by decide, hfield⟩,
    set_ctx_size_floor test_engine one_model_state "m" (-3) test_handle (by decide) (by decide)
      hfield⟩

/-! ## Decode example -/

/-- The capacity check of `llama_test` compares the context length with `32`, whatever the
number of prompt tokens: the `size_t` sum on line 163 wraps around to `n_len`. -/
theorem n_kv_req_eq (size : Nat) : n_kv_req size = 32 := by
  have h1 : size_of_int n_len = 32 := by decide
  have h2 : size_add size (size_sub 32 size) = 32 := by
    simp only [size_add, size_sub]
    omega
  rw [n_kv_req, h1, h2]
  decide

theorem add_prompt_length_aux (l : List (Nat × Int)) (batch : List batch_entry) :
    (l.foldl (fun b it => llama_batch_add b it.2 it.1 false) batch).length
      = batch.length + l.length := by
  induction l generalizing batch with
  | nil => simp
  | cons a l ih =>
    simp only [List.foldl_cons, List.length_cons]
    rw [ih]
    simp [llama_batch_add]
    omega

theorem prompt_batch_length (tokens_list : List Int) :
    (set_last_logits (add_prompt (llama_batch_init 512) tokens_list)).length
      = tokens_list.length := by
  simp [set_last_logits, add_prompt, add_prompt_length_aux, llama_batch_init]

theorem eos_index_le (sampled : Nat → Int) (eos : Int) (start n : Nat) :
    eos_index sampled eos start n ≤ n := by
  induction n generalizing start with
  | zero => simp [eos_index]
  | succ n ih =>
    simp only [eos_index]
    split
    · omega
    · have := ih (start + 1)
      omega

theorem eos_index_ne (sampled : Nat → Int) (eos : Int) (start n j : Nat)
    (hj : j < eos_index sampled eos start n) : sampled (start + j) ≠ eos := by
  induction n generalizing start j with
  | zero => simp [eos_index] at hj
  | succ n ih =>
    simp only [eos_index] at hj
    split at hj
    · omega
    · rename_i hne
      cases j with
      | zero => simpa using hne
      | succ j =>
        have := ih (start + 1) j (by omega)
        rwa [show start + 1 + j = start + (j + 1) by omega] at this

theorem eos_index_hit (sampled : Nat → Int) (eos : Int) (start n : Nat)
    (hlt : eos_index sampled eos start n < n) :
    sampled (start + eos_index sampled eos start n) = eos := by
  induction n generalizing start with
  | zero => omega
  | succ n ih =>
    simp only [eos_index] at hlt ⊢
    split
    · rename_i heq
      simpa using heq
    · rename_i hne
      rw [if_neg hne] at hlt
      have := ih (start + 1) (by omega)
      rwa [show start + 1 + eos_index sampled eos (start + 1) n
        = start + (eos_index sampled eos (start + 1) n + 1) by omega] at this

theorem eos_index_min (sampled : Nat → Int) (eos : Int) (n k : Nat)
    (hk : sampled k = eos) (hfirst : ∀ j, j < k → sampled j ≠ eos) :
    eos_index sampled eos 0 n = min n k := by
  have hle := eos_index_le sampled eos 0 n
  have hdk : eos_index sampled eos 0 n ≤ k := by
    by_contra hcon
    have := eos_index_ne sampled eos 0 n k (by omega)
    simp only [Nat.zero_add] at this
    exact this hk
  by_contra hne
  have hlt : eos_index sampled eos 0 n < n := by
    rcases Nat.lt_or_ge (eos_index sampled eos 0 n) n with h | h
    · exact h
    · exfalso; apply hne; rw [Nat.min_def]; split <;> omega
  have hhit := eos_index_hit sampled eos 0 n hlt
  simp only [Nat.zero_add] at hhit
  have hltk : eos_index sampled eos 0 n < k := by
    rcases Nat.lt_or_ge (eos_index sampled eos 0 n) k with h | h
    · exact h
    · exfalso; apply hne; rw [Nat.min_def]; split <;> omega
  exact hfirst _ hltk hhit

theorem eos_index_none (sampled : Nat → Int) (eos : Int) (n : Nat)
    (hnone : ∀ j, sampled j ≠ eos) : eos_index sampled eos 0 n = n := by
  have hle := eos_index_le sampled eos 0 n
  by_contra hne
  exact hnone _ (eos_index_hit sampled eos 0 n (by omega))

theorem decode_count_append (tr tr2 : List Event) :
    decode_count (tr ++ tr2) = decode_count tr + decode_count tr2 := by
  simp [decode_count]

theorem printed_append (tr tr2 : List Event) :
    printed (tr ++ tr2) = printed tr ++ printed tr2 := by
  simp [printed]

theorem reported_append (tr tr2 : List Event) :
    reported (tr ++ tr2) = reported tr ++ reported tr2 := by
  simp [reported]

theorem decode_count_loop_events (sampled : Nat → Int) (start : Nat) (pos : Int) (d : Nat) :
    decode_count (loop_events sampled start pos d) = d := by
  induction d generalizing start pos with
  | zero => simp [loop_events, decode_count]
  | succ d ih =>
    rw [loop_events, decode_count_append, ih]
    simp [decode_count]
    omega

theorem reported_loop_events (sampled : Nat → Int) (start : Nat) (pos : Int) (d : Nat) :
    reported (loop_events sampled start pos d) = [] := by
  induction d generalizing start pos with
  | zero => simp [loop_events, reported]
  | succ d ih =>
    rw [loop_events, reported_append, ih]
    simp [reported]

theorem printed_loop_events (sampled : Nat → Int) (start : Nat) (pos : Int) (d : Nat) :
    printed (loop_events sampled start pos d)
      = (List.range d).map fun j => sampled (start + j) := by
  induction d generalizing start pos with
  | zero => simp [loop_events, printed]
  | succ d ih =>
    rw [loop_events, printed_append, ih, List.range_succ_eq_map]
    simp [printed, Function.comp_def, Nat.add_assoc, Nat.add_comm 1]

/-- The main loop, entered with `n_cur = 32 - r` and at least `r + 1` units of fuel, when every
decode succeeds: it is left normally after `d` generating iterations, `d` being the number
of sampled tokens before the first `eos`, at most `r`. -/
theorem main_loop_spec (S : Session) (eos : Int) (hdec : ∀ i, S.llama_decode i = 0)
    (r : Nat) (fuel : Nat) (v : Loop) (hcur : v.n_cur = 32 - (r : Int)) (hfuel : r + 1 ≤ fuel) :
    ∃ v2 : Loop, main_loop S eos fuel v = (LoopExit.left, v2)
      ∧ v2.n_decode
          = v.n_decode + (eos_index S.llama_sample_token_greedy eos v.sample_calls r : Nat)
      ∧ v2.trace = v.trace ++ loop_events S.llama_sample_token_greedy v.sample_calls v.n_cur
          (eos_index S.llama_sample_token_greedy eos v.sample_calls r) := by
  induction r generalizing fuel v with
  | zero =>
    obtain ⟨fuel, rfl⟩ : ∃ f, fuel = f + 1 := ⟨fuel - 1, by omega⟩
    have hc : v.n_cur = n_len := by simp [hcur, n_len]
    refine ⟨{ v with sample_calls := v.sample_calls + 1 }, ?_, ?_, ?_⟩
    · simp [main_loop, hc]
    · simp [eos_index]
    · simp [eos_index, loop_events]
  | succ r ih =>
    obtain ⟨fuel, rfl⟩ : ∃ f, fuel = f + 1 := ⟨fuel - 1, by omega⟩
    have hle : v.n_cur ≤ n_len := by simp only [hcur, n_len]; omega
    have hne : ¬ v.n_cur = n_len := by simp only [hcur, n_len]; omega
    by_cases htok : S.llama_sample_token_greedy v.sample_calls = eos
    · refine ⟨{ v with sample_calls := v.sample_calls + 1 }, ?_, ?_, ?_⟩
      · simp [main_loop, hle, htok]
      · simp [eos_index, htok]
      · simp [eos_index, htok, loop_events]
    · obtain ⟨v2, hrun, hn, htr⟩ := ih fuel
        { n_cur := v.n_cur + 1
          n_decode := v.n_decode + 1
          batch := llama_batch_add (llama_batch_clear v.batch)
            (S.llama_sample_token_greedy v.sample_calls) v.n_cur true
          decode_calls := v.decode_calls + 1
          sample_calls := v.sample_calls + 1
          trace := (v.trace ++ [Event.print_token (S.llama_sample_token_greedy v.sample_calls)])
            ++ [Event.llama_decode (llama_batch_add (llama_batch_clear v.batch)
              (S.llama_sample_token_greedy v.sample_calls) v.n_cur true)] }
        (by simp only [hcur]; push_cast; omega) (by omega)
      refine ⟨v2, ?_, ?_, ?_⟩
      · rw [← hrun]
        simp [main_loop, hle, hne, htok, hdec]
      · rw [hn]
        simp only [eos_index, htok, if_false]
        push_cast
        omega
      · rw [htr]
        simp [eos_index, htok, loop_events, llama_batch_add, llama_batch_clear]

/-- The whole run of `llama_test` on a prompt of `1` to `32` tokens that passes the capacity
check, when every decode succeeds and the fuel covers the `33 - p` iterations the loop can
make. -/
theorem llama_test_run (E : Engine) (s : State) (model_id prompt : String) (h : model_ctx)
    (S : Session) (fuel : Nat)
    (hreg : s.models model_id = some h)
    (hctx : E.llama_new_context_with_model s.trace h.model h.ctx_params = some S)
    (hp1 : 1 ≤ (S.llama_tokenize prompt).length)
    (hp32 : (S.llama_tokenize prompt).length ≤ 32)
    (hcap : ¬ n_kv_req (S.llama_tokenize prompt).length > S.llama_n_ctx)
    (hdec : ∀ i, S.llama_decode i = 0)
    (hfuel : 33 - (S.llama_tokenize prompt).length ≤ fuel) :
    llama_test E fuel s model_id prompt
      = (Outcome.ret 0,
          { s with
            trace := s.trace
              ++ [Event.llama_new_context_with_model h.model h.ctx_params,
                Event.llama_decode
                  (set_last_logits (add_prompt (llama_batch_init 512) (S.llama_tokenize prompt)))]
              ++ loop_events S.llama_sample_token_greedy 0 (S.llama_tokenize prompt).length
                (eos_index S.llama_sample_token_greedy (E.llama_token_eos h.model) 0
                  (32 - (S.llama_tokenize prompt).length))
              ++ [Event.report_decoded
                    (eos_index S.llama_sample_token_greedy (E.llama_token_eos h.model) 0
                      (32 - (S.llama_tokenize prompt).length) : Nat),
                  Event.llama_free] }) := by
  obtain ⟨v2, hrun, hn, htr⟩ := main_loop_spec S (E.llama_token_eos h.model) hdec
    (32 - (S.llama_tokenize prompt).length) fuel
    { n_cur := (set_last_logits
        (add_prompt (llama_batch_init 512) (S.llama_tokenize prompt))).length
      n_decode := 0
      batch := set_last_logits (add_prompt (llama_batch_init 512) (S.llama_tokenize prompt))
      decode_calls := 1
      sample_calls := 0
      trace := (s.trace ++ [Event.llama_new_context_with_model h.model h.ctx_params])
        ++ [Event.llama_decode
          (set_last_logits (add_prompt (llama_batch_init 512) (S.llama_tokenize prompt)))] }
    (by simp only [prompt_batch_length]; omega) (by omega)
  have hlen0 : ¬ ((S.llama_tokenize prompt).length = 0 ∨ 512 < (S.llama_tokenize prompt).length) := by
    omega
  simp only [llama_test, get_model, hreg, hctx, hcap, if_false, hlen0, hdec, ne_eq,
    not_true_eq_false, hrun]
  simp only [hn, htr, prompt_batch_length]
  simp

/-- C10: on a registered id whose context is created, for a prompt of `p` tokens with
`1 ≤ p ≤ 32` that passes the capacity check, for every stream `sampled` of tokens given by
the greedy sampler, when every decode succeeds and the loop is given fuel for `33 - p`
iterations: `llama_test` returns `0`, and the number `n_decode` it reports is the minimum of
`32 - p` and the index `k` of the first end-of-sequence token in the stream (`32 - p` when
there is none).  So `p + n_decode ≤ 32`; the tokens printed are the first `n_decode`
tokens of the stream, none of them the end-of-sequence token; and `n_decode` decodes follow
the priming decode. -/
theorem llama_test_generation (E : Engine) (s : State) (model_id prompt : String)
    (h : model_ctx) (S : Session) (fuel : Nat)
    (hreg : s.models model_id = some h)
    (hctx : E.llama_new_context_with_model s.trace h.model h.ctx_params = some S)
    (hp1 : 1 ≤ (S.llama_tokenize prompt).length)
    (hp32 : (S.llama_tokenize prompt).length ≤ 32)
    (hcap : ¬ n_kv_req (S.llama_tokenize prompt).length > S.llama_n_ctx)
    (hdec : ∀ i, S.llama_decode i = 0)
    (hfuel : 33 - (S.llama_tokenize prompt).length ≤ fuel) :
    (llama_test E fuel s model_id prompt).1 = Outcome.ret 0
      ∧ ∃ n_decode : Nat,
          reported (llama_test E fuel s model_id prompt).2.trace
              = reported s.trace ++ [(n_decode : Int)]
            ∧ n_decode = eos_index S.llama_sample_token_greedy (E.llama_token_eos h.model) 0
                (32 - (S.llama_tokenize prompt).length)
            ∧ (∀ k, S.llama_sample_token_greedy k = E.llama_token_eos h.model →
                (∀ j, j < k → S.llama_sample_token_greedy j ≠ E.llama_token_eos h.model) →
                n_decode = min (32 - (S.llama_tokenize prompt).length) k)
            ∧ ((∀ j, S.llama_sample_token_greedy j ≠ E.llama_token_eos h.model) →
                n_decode = 32 - (S.llama_tokenize prompt).length)
            ∧ (S.llama_tokenize prompt).length + n_decode ≤ 32
            ∧ printed (llama_test E fuel s model_id prompt).2.trace
                = printed s.trace ++ (List.range n_decode).map S.llama_sample_token_greedy
            ∧ (∀ j, j < n_decode → S.llama_sample_token_greedy j ≠ E.llama_token_eos h.model)
            ∧ decode_count (llama_test E fuel s model_id prompt).2.trace
                = decode_count s.trace + 1 + n_decode := by
  rw [llama_test_run E s model_id prompt h S fuel hreg hctx hp1 hp32 hcap hdec hfuel]
  refine ⟨rfl, _, ?_, rfl, ?_, ?_, ?_, ?_, ?_, ?_⟩
  · simp only [reported_append, reported_loop_events]
    simp [reported]
  · intro k hk hfirst
    exact eos_index_min _ _ _ k hk hfirst
  · intro hnone
    exact eos_index_none _ _ _ hnone
  · have := eos_index_le S.llama_sample_token_greedy (E.llama_token_eos h.model) 0
      (32 - (S.llama_tokenize prompt).length)
    omega
  · simp only [printed_append, printed_loop_events]
    simp [printed]
  · intro j hj
    have := eos_index_ne _ _ 0 _ j hj
    simpa using this
  · simp only [decode_count_append, decode_count_loop_events]
    simp [decode_count]

theorem llama_test_generation_witness :
    (one_model_state.models "m" = some test_handle
        ∧ test_engine.llama_new_context_with_model one_model_state.trace test_handle.model
            test_handle.ctx_params = some (test_session test_handle.ctx_params)
        ∧ ((test_session test_handle.ctx_params).llama_tokenize "abc").length = 4
        ∧ ¬ n_kv_req 4 > (test_session test_handle.ctx_params).llama_n_ctx)
      ∧ (llama_test test_engine 33 one_model_state "m" "abc").1 = Outcome.ret 0
      ∧ ∃ n_decode : Nat,
          reported (llama_test test_engine 33 one_model_state "m" "abc").2.trace
              = reported one_model_state.trace ++ [(n_decode : Int)]
            ∧ n_decode = eos_index (test_session test_handle.ctx_params).llama_sample_token_greedy
                (test_engine.llama_token_eos test_handle.model) 0
                (32 - ((test_session test_handle.ctx_params).llama_tokenize "abc").length)
            ∧ (∀ k, (test_session test_handle.ctx_params).llama_sample_token_greedy k
                  = test_engine.llama_token_eos test_handle.model →
                (∀ j, j < k → (test_session test_handle.ctx_params).llama_sample_token_greedy j
                  ≠ test_engine.llama_token_eos test_handle.model) →
                n_decode
                  = min (32 - ((test_session test_handle.ctx_params).llama_tokenize "abc").length) k)
            ∧ ((∀ j, (test_session test_handle.ctx_params).llama_sample_token_greedy j
                  ≠ test_engine.llama_token_eos test_handle.model) →
                n_decode = 32 - ((test_session test_handle.ctx_params).llama_tokenize "abc").length)
            ∧ ((test_session test_handle.ctx_params).llama_tokenize "abc").length + n_decode ≤ 32
            ∧ printed (llama_test test_engine 33 one_model_state "m" "abc").2.trace
                = printed one_model_state.trace
                  ++ (List.range n_decode).map
                    (test_session test_handle.ctx_params).llama_sample_token_greedy
            ∧ (∀ j, j < n_decode → (test_session test_handle.ctx_params).llama_sample_token_greedy j
                ≠ test_engine.llama_token_eos test_handle.model)
            ∧ decode_count (llama_test test_engine 33 one_model_state "m" "abc").2.trace
                = decode_count one_model_state.trace + 1 + n_decode :=
  ⟨⟨by decide, rfl, by decide, by decide⟩,
    llama_test_generation test_engine one_model_state "m" "abc" test_handle
      (test_session test_handle.ctx_params) 33 (by decide) rfl (by decide) (by decide)
      (by decide) (fun _ => rfl) (by decide)⟩

/-- What the capacity check of `llama_test` does: on a registered id whose context is
created, the call returns `1` before any decode exactly when the context length is below
`32`, whatever the number of prompt tokens. -/
theorem llama_test_capacity_check (E : Engine) (fuel : Nat) (s : State)
    (model_id prompt : String) (h : model_ctx) (S : Session)
    (hreg : s.models model_id = some h)
    (hctx : E.llama_new_context_with_model s.trace h.model h.ctx_params = some S)
    (hsmall : S.llama_n_ctx < 32) :
    (llama_test E fuel s model_id prompt).1 = Outcome.ret 1
      ∧ decode_count (llama_test E fuel s model_id prompt).2.trace = decode_count s.trace := by
  have hgt : n_kv_req (S.llama_tokenize prompt).length > S.llama_n_ctx := by
    rw [n_kv_req_eq]; exact hsmall
  simp [llama_test, get_model, hreg, hctx, hgt, decode_count]

/-- C6: a run of `llama_test` in which the required cache size exceeds the context length and
decode is invoked all the same.  The id `m` is registered, the context is created and
reports a length of `40`, and the prompt has `48` tokens, so `max 48 32 = 48` slots are
required; the check on line 170 compares `n_kv_req = 32` with `40` and passes, the priming
decode of the 48 tokens is issued, and the call returns `0`. -/
theorem llama_test_capacity_check_miss :
    one_model_state.models "m" = some test_handle
      ∧ test_engine.llama_new_context_with_model one_model_state.trace test_handle.model
          test_handle.ctx_params = some (test_session test_handle.ctx_params)
      ∧ ((test_session test_handle.ctx_params).llama_tokenize long_prompt).length = 48
      ∧ (test_session test_handle.ctx_params).llama_n_ctx = 40
      ∧ max (48 : Int) 32 > 40
      ∧ n_kv_req 48 = 32
      ∧ (llama_test test_engine 33 one_model_state "m" long_prompt).1 = Outcome.ret 0
      ∧ decode_count (llama_test test_engine 33 one_model_state "m" long_prompt).2.trace
          = decode_count one_model_state.trace + 1 := by
  refine ⟨by decide, rfl, by decide, by decide, by decide, by decide, ?_, ?_⟩
  · decide
  · decide

end TinyLLM
